import Mathlib

/-!
# Verification of the Conformer Search SDK example script

This development shallowly embeds `examples/Getting_Started/03_Conformer_Search/sdk/run.py`
and proves properties of its payload construction, submission loop, and
wait/collect/write loop.  The remote Promethium service and the SDK client are
external collaborators; they are modelled as oracle functions, with their
documented contracts taken as explicit hypotheses where a claim depends on them.
-/

namespace ConformerSearch

/-- JSON-like configuration values; numbers appear only as literal configuration
data in the script, so they are represented exactly as rationals. -/
inductive JVal where
  | null : JVal
  | bool (b : Bool) : JVal
  | num (q : Rat) : JVal
  | str (s : String) : JVal
  | arr (xs : List JVal) : JVal
  | obj (fields : List (String × JVal)) : JVal

/-- The `resources` block of a workflow request (run.py line 118). -/
structure Resources where
  gpu_type : String
deriving DecidableEq, Repr

/-- The `parameters` block of a workflow request (run.py lines 55-117). -/
structure Parameters where
  molecule : JVal
  params : JVal
  filters : List JVal

/-- A workflow request configuration, mirroring the `job_params` dict shape
(run.py lines 51-119); `CreateConformerSearchWorkflowRequest(**d)` carries these
fields through unchanged. -/
structure JobParams where
  name : String
  version : String
  kind : String
  parameters : Parameters
  resources : Resources

/-- A workflow record as returned by the client: server id, name, status and
wall-clock duration. -/
structure Workflow where
  id : String
  name : String
  status : String
  duration_seconds : Rat

/-- `os.getenv(key, default)`: the environment is an association list. -/
def os_getenv (env : List (String × String)) (key dflt : String) : String :=
  (env.lookup key).getD dflt

/-- run.py line 29. -/
def foldername : String := "output"

/-- run.py line 30: `base_url = os.getenv("PM_API_BASE_URL", "https://api.promethium.qcware.com")`. -/
def base_url (env : List (String × String)) : String :=
  os_getenv env "PM_API_BASE_URL" "https://api.promethium.qcware.com"

/-- run.py line 31: `gpu_type = os.getenv("PM_GPU_TYPE", "a100")`. -/
def gpu_type (env : List (String × String)) : String :=
  os_getenv env "PM_GPU_TYPE" "a100"

/-- The input SMILES strings (run.py lines 39-42). -/
def SMILES : List String :=
  ["CCOCC",
   "CC1(C2C1C(N(C2)C(=O)C(C(C)(C)C)NC(=O)C(F)(F)F)C(=O)NC(CC3CCNC3=O)C#N)C"]

/-- The names of the SMILES strings (run.py lines 45-48). -/
def SMILES_Names : List String :=
  ["Diethyl_Ether", "Nirmatrelvir"]

/-- The base64 alphabet (RFC 4648). -/
def base64Chars : List Char :=
  "ABCDEFGHIJKLMNOPQRSTUVWXYZabcdefghijklmnopqrstuvwxyz0123456789+/".toList

/-- The base64 digit for a 6-bit value. -/
def b64Char (n : Nat) : Char := base64Chars.getD n 'A'

/-- Standard base64 encoding of a byte sequence (bytes as naturals below 256). -/
def base64encodeBytes : List Nat → List Char
  | [] => []
  | [a] => [b64Char (a / 4), b64Char (a % 4 * 16), '=', '=']
  | [a, b] => [b64Char (a / 4), b64Char (a % 4 * 16 + b / 16), b64Char (b % 16 * 4), '=']
  | a :: b :: c :: rest =>
      b64Char (a / 4) :: b64Char (a % 4 * 16 + b / 16) :: b64Char (b % 16 * 4 + c / 64)
        :: b64Char (c % 64) :: base64encodeBytes rest

/-- The UTF-8 encoding of a Unicode code point, as bytes below 256. -/
def utf8Encode (n : Nat) : List Nat :=
  if n < 128 then [n]
  else if n < 2048 then [192 + n / 64, 128 + n % 64]
  else if n < 65536 then [224 + n / 4096, 128 + n / 64 % 64, 128 + n % 64]
  else [240 + n / 262144, 128 + n / 4096 % 64, 128 + n / 64 % 64, 128 + n % 64]

/-- The UTF-8 bytes of a string (Python `s.encode()`). -/
def strBytes (s : String) : List Nat :=
  (s.data.map (fun c => utf8Encode c.val.toNat)).flatten

/-- Modelled from the spec: `promethium_sdk.utils.base64encode` is an external
SDK helper absent from this repository; the spec calls it the "base64-encoded
input", modelled here as standard RFC 4648 base64 of the string's UTF-8 bytes. -/
def base64encode (s : String) : String :=
  String.mk (base64encodeBytes (strBytes s))

/-- The shared workflow configuration template `job_params`
(run.py lines 51-119, transcribed field by field; note line 118 hardcodes
`gpu_type` to `"a100"`). -/
def job_params : JobParams where
  name := "name_placeholder"
  version := "v1"
  kind := "ConformerSearch"
  parameters :=
    { molecule := JVal.obj []
      params := JVal.obj
        [("confgen_max_n_conformers", JVal.num 50),
         ("confgen_rmsd_threshold", JVal.num (3/10)),
         ("charge", JVal.num 0),
         ("multiplicity", JVal.num 1)]
      filters :=
        [JVal.obj
          [("filtertype", JVal.str "ForceField"),
           ("params", JVal.obj
             [("do_geometry_optimization", JVal.bool true),
              ("forcefield_type", JVal.str "MMFF"),
              ("max_n_conformers", JVal.num 50),
              ("energy_threshold", JVal.num 15),
              ("rmsd_threshold", JVal.num (3/10)),
              ("coulomb_distance_threshold", JVal.num (5/1000))]),
           ("key", JVal.str "FF")],
         JVal.obj
          [("filtertype", JVal.str "ANI"),
           ("params", JVal.obj
             [("max_n_conformers", JVal.num 10),
              ("energy_threshold", JVal.num 10),
              ("distance_threshold", JVal.num (5/1000)),
              ("do_geometry_optimization", JVal.bool true)]),
           ("key", JVal.str "ANI")],
         JVal.obj
          [("filtertype", JVal.str "DFT"),
           ("params", JVal.obj
             [("maxiter", JVal.num 15),
              ("energy_threshold", JVal.num 5),
              ("do_geometry_optimization", JVal.bool true),
              ("distance_threshold", JVal.num (5/1000)),
              ("g_thresh", JVal.num (1/10000))]),
           ("system", JVal.obj
             [("params", JVal.obj
               [("basisname", JVal.str "def2-svp"),
                ("jkfit_basisname", JVal.str "def2-universal-jkfit"),
                ("methodname", JVal.str "b3lyp-d3"),
                ("xc_grid_scheme", JVal.str "SG1"),
                ("pcm_epsilon", JVal.num (804/10)),
                ("pcm_spherical_npoint", JVal.num 110)])]),
           ("hf", JVal.obj
             [("params", JVal.obj [("g_convergence", JVal.num (1/1000000))])]),
           ("jk_builder", JVal.obj
             [("type", JVal.str "core_dfjk"), ("params", JVal.obj [])]),
           ("key", JVal.str "DFT Stage 1 (Coarse Filtering)")]] }
  resources := { gpu_type := "a100" }

/-- One loop-body payload construction (run.py lines 127-133): deep-copy the
template, set `name` to `f"{smile_name}_api_conformer-search"`, and replace
`parameters.molecule` with the base64-encoded SMILES and filetype `"smi"`.
`copy.deepcopy` means the updates land on an independent copy, embedded here as
functional record updates that leave the template value untouched. -/
def buildPayload (template : JobParams) (smile smile_name : String) : JobParams :=
  { template with
      name := smile_name ++ "_api_conformer-search"
      parameters :=
        { template.parameters with
            molecule := JVal.obj
              [("base64data", JVal.str (base64encode smile)),
               ("filetype", JVal.str "smi")] } }

/-- The external Promethium client collaborator (spec section 4.2): `submit`
returns a workflow or raises (modelled as `Except`); `wait` blocks until the
workflow reaches a terminal state, transforming unobservable remote state `σ`;
`get` and `results` are reads of that state.  `ρ` is the opaque result type. -/
structure Client (σ ρ : Type) where
  submit : JobParams → Except String Workflow
  wait : σ → String → σ
  get : σ → String → Workflow
  results : σ → String → ρ

/-- Observable events of a run, in program order. -/
inductive Event where
  | submitEv (payload : JobParams) (outcome : Except String Workflow) : Event
  | waitEv (id : String) : Event
  | getEv (id : String) (w : Workflow) : Event
  | resultsEv (id : String) : Event
  | writeEv (path : String) (contents : String) : Event

/-- A simple filesystem: existing directories and written files in write order. -/
structure FS where
  dirs : List String
  files : List (String × String)

/-- run.py lines 33-34: `if not os.path.exists(foldername): os.makedirs(foldername)`. -/
def ensureOutput (fs : FS) : FS :=
  if fs.dirs.contains foldername then fs
  else { fs with dirs := foldername :: fs.dirs }

/-- `open(f"{dir}/{file}", "w")` followed by a write: fails (raises
`FileNotFoundError`, modelled as `none`) when the directory does not exist. -/
def writeInDir (fs : FS) (dir file contents : String) : Option FS :=
  if fs.dirs.contains dir then
    some { fs with files := fs.files ++ [(dir ++ "/" ++ file, contents)] }
  else none

/-- The id of a successful submission outcome. -/
def okId : Except String Workflow → String
  | Except.ok w => w.id
  | Except.error _ => ""

/-- The submission loop (run.py lines 124-136): for each `(smile, smile_name)`
pair, deep-copy `job_params` into a temporary, fill in the name and molecule,
submit, and append the returned workflow id.  The template is threaded through
the iterations; because the body copies it, it is passed on unchanged.  An
exception from `submit` propagates uncaught: the loop aborts and later inputs
are never submitted.  Returns the final template value, the submit events in
order, and either the collected `workflow_ids` or the uncaught error. -/
def submitLoop (submit : JobParams → Except String Workflow) :
    JobParams → List (String × String) →
      JobParams × List Event × Except String (List String)
  | tp, [] => (tp, [], Except.ok [])
  | tp, (smile, smile_name) :: rest =>
      match submit (buildPayload tp smile smile_name) with
      | Except.error e =>
          (tp, [Event.submitEv (buildPayload tp smile smile_name) (Except.error e)],
           Except.error e)
      | Except.ok w =>
          ((submitLoop submit tp rest).1,
           Event.submitEv (buildPayload tp smile smile_name) (Except.ok w) ::
             (submitLoop submit tp rest).2.1,
           ((submitLoop submit tp rest).2.2).map (fun ids => w.id :: ids))

/-- The payload-builder component in isolation (spec section 4.1; the building
statements of run.py lines 126-133 iterated over the inputs, without the
network call): threads the shared template and collects one payload per input. -/
def buildLoop : JobParams → List (String × String) → JobParams × List JobParams
  | tp, [] => (tp, [])
  | tp, (smile, smile_name) :: rest =>
      ((buildLoop tp rest).1,
       buildPayload tp smile smile_name :: (buildLoop tp rest).2)

/-- The wait/collect loop (run.py lines 148-166): for each stored id in order,
wait for the workflow, get its status, fetch the results, and write them as
JSON into the output folder.  `serialize` is the external
`model_dump_json(indent=2)` serializer.  Returns the events in order, and
`none` when a file write fails (uncaught `FileNotFoundError`). -/
def resultsLoop {σ ρ : Type} (C : Client σ ρ) (serialize : ρ → String) :
    σ → FS → List String → List Event × Option (σ × FS)
  | s, fs, [] => ([], some (s, fs))
  | s, fs, workflow_id :: rest =>
      match writeInDir fs foldername
          ((C.get (C.wait s workflow_id) workflow_id).name ++ "_results.json")
          (serialize (C.results (C.wait s workflow_id) workflow_id)) with
      | none =>
          ([Event.waitEv workflow_id,
            Event.getEv workflow_id (C.get (C.wait s workflow_id) workflow_id),
            Event.resultsEv workflow_id], none)
      | some fs1 =>
          (Event.waitEv workflow_id ::
             Event.getEv workflow_id (C.get (C.wait s workflow_id) workflow_id) ::
             Event.resultsEv workflow_id ::
             Event.writeEv
               (foldername ++ "/" ++
                 ((C.get (C.wait s workflow_id) workflow_id).name ++ "_results.json"))
               (serialize (C.results (C.wait s workflow_id) workflow_id)) ::
             (resultsLoop C serialize (C.wait s workflow_id) fs1 rest).1,
           (resultsLoop C serialize (C.wait s workflow_id) fs1 rest).2)

/-- The whole script on the zipped inputs: ensure the output directory exists
(lines 33-34), run the submission loop over `zip(SMILES, SMILES_Names)`
(lines 126-136), then on success run the wait/collect loop over the stored ids
(lines 148-166).  Returns the full event trace and, unless an exception
escaped, the final remote state and filesystem. -/
def runScript {σ ρ : Type} (C : Client σ ρ) (serialize : ρ → String)
    (s0 : σ) (fs0 : FS) (smiles names : List String) :
    List Event × Option (σ × FS) :=
  match (submitLoop C.submit job_params (smiles.zip names)).2.2 with
  | Except.error _ => ((submitLoop C.submit job_params (smiles.zip names)).2.1, none)
  | Except.ok ids =>
      ((submitLoop C.submit job_params (smiles.zip names)).2.1 ++
         (resultsLoop C serialize s0 (ensureOutput fs0) ids).1,
       (resultsLoop C serialize s0 (ensureOutput fs0) ids).2)

/-- Is this event a submission event? -/
def isSubmitE : Event → Bool
  | Event.submitEv _ _ => true
  | _ => false

/-- Is this event a wait event? -/
def isWaitE : Event → Bool
  | Event.waitEv _ => true
  | _ => false

/-- The workflow id recorded by a successful submit event. -/
def submitIdOf : Event → Option String
  | Event.submitEv _ (Except.ok w) => some w.id
  | _ => none

/-- The id waited on by a wait event. -/
def waitIdOf : Event → Option String
  | Event.waitEv wid => some wid
  | _ => none

/-- The status read by a get event. -/
def getStatusOf : Event → Option String
  | Event.getEv _ w => some w.status
  | _ => none

/-- The (path, contents) pair of a write event. -/
def writeOf : Event → Option (String × String)
  | Event.writeEv p c => some (p, c)
  | _ => none

/-- A workflow status is terminal when it is completed or failed. -/
def isTerminal (st : String) : Prop := st = "completed" ∨ st = "failed"

/-- The (workflow name, result) pairs observed by the wait/collect loop, one
per stored id in order, threading the remote state through the waits. -/
def resultsTrace {σ ρ : Type} (C : Client σ ρ) : σ → List String → List (String × ρ)
  | _, [] => []
  | s, workflow_id :: rest =>
      let s1 := C.wait s workflow_id
      ((C.get s1 workflow_id).name, C.results s1 workflow_id) ::
        resultsTrace C s1 rest

/-- A submission oracle that always raises (e.g. network down). -/
def failSubmit : JobParams → Except String Workflow :=
  fun _ => Except.error "network error"

/-- A submission oracle that always succeeds, echoing the payload name. -/
def okSubmit : JobParams → Except String Workflow :=
  fun p =>
    Except.ok { id := p.name ++ "-id", name := p.name,
                status := "pending", duration_seconds := 0 }

/-- A submission oracle that succeeds for the first script input and raises on
everything else. -/
def flakySubmit : JobParams → Except String Workflow :=
  fun p =>
    if p.name = "Diethyl_Ether_api_conformer-search" then
      Except.ok { id := "wf-1", name := p.name,
                  status := "pending", duration_seconds := 0 }
    else Except.error "boom"

/-- A concrete client instance for exercising the model: submissions succeed,
waiting drives every workflow to the completed state. -/
def demoClient : Client Unit Unit where
  submit := okSubmit
  wait := fun _ _ => ()
  get := fun _ wid =>
    { id := wid, name := "wf_" ++ wid, status := "completed", duration_seconds := 0 }
  results := fun _ _ => ()

/-- A concrete result serializer for exercising the model. -/
def demoSer : Unit → String := fun _ => "demo-results"

/-- The matching deserializer: inverts `demoSer`. -/
def demoDeser : String → Option Unit :=
  fun s => if s = "demo-results" then some () else none

/-! ## Helper lemmas -/

/-- Appending a fixed string on the right is injective. -/
theorem append_left_inj (t : String) :
    Function.Injective (fun s : String => s ++ t) := by
  intro a b h
  apply String.ext
  have hd : a.data ++ t.data = b.data ++ t.data := by
    simpa [String.data_append] using congrArg String.data h
  exact List.append_left_injective t.data hd

/-- The builder loop passes the template through unchanged and produces one
payload per input, each built from the original template. -/
theorem buildLoop_eq (tp : JobParams) (inputs : List (String × String)) :
    buildLoop tp inputs = (tp, inputs.map (fun x => buildPayload tp x.1 x.2)) := by
  induction inputs with
  | nil => rfl
  | cons x rest ih => simp [buildLoop, ih]

/-- The submission loop never changes the template value it threads. -/
theorem submitLoop_fst (submit : JobParams → Except String Workflow)
    (tp : JobParams) (inputs : List (String × String)) :
    (submitLoop submit tp inputs).1 = tp := by
  induction inputs with
  | nil => rfl
  | cons x rest ih =>
      obtain ⟨smile, smile_name⟩ := x
      simp only [submitLoop]
      cases hsub : submit (buildPayload tp smile smile_name) with
      | error e => rfl
      | ok w => exact ih

/-- When every submission succeeds, the submission loop returns the template
unchanged, one submit event per input in order, and the list of returned
workflow ids in input order. -/
theorem submitLoop_ok (submit : JobParams → Except String Workflow)
    (tp : JobParams) (inputs : List (String × String))
    (h : ∀ x ∈ inputs, ∃ w, submit (buildPayload tp x.1 x.2) = Except.ok w) :
    submitLoop submit tp inputs =
      (tp,
       inputs.map (fun x =>
         Event.submitEv (buildPayload tp x.1 x.2) (submit (buildPayload tp x.1 x.2))),
       Except.ok (inputs.map (fun x => okId (submit (buildPayload tp x.1 x.2))))) := by
  induction inputs with
  | nil => rfl
  | cons x rest ih =>
      obtain ⟨smile, smile_name⟩ := x
      obtain ⟨w, hw⟩ := h ⟨smile, smile_name⟩ (List.mem_cons_self _ _)
      have hrest := ih (fun y hy => h y (List.mem_cons_of_mem _ hy))
      simp only [submitLoop, hw, hrest]
      simp [hw, okId, Except.map]

/-! ## C1: environment variables -/

/-- C1: the claim states that the accelerator type in every submitted payload's
`resources.gpu_type` is the value of `PM_GPU_TYPE`.  The code reads the
environment variable (line 31) but never uses it: line 118 hardcodes
`"gpu_type": "a100"` in `job_params`, so with `PM_GPU_TYPE=h100` the variable
evaluates to `"h100"` while the payload built for the first input still carries
`"a100"`. -/
theorem C1_gpu_type_env_ignored :
    gpu_type [("PM_GPU_TYPE", "h100")] = "h100" ∧
    (buildPayload job_params "CCOCC" "Diethyl_Ether").resources.gpu_type = "a100" ∧
    job_params.resources.gpu_type = "a100" :=
  ⟨rfl, rfl, rfl⟩

/-! ## C2: the payload builder -/

/-- C2: building the per-input payloads leaves the shared template `job_params`
unchanged, produces one payload per input each derived solely from the original
template and its own input, sets each payload's name to
`<label>_api_conformer-search`, keeps every other template field unmutated, and
the payload names are pairwise distinct when the labels are. -/
theorem C2_build_payloads (inputs : List (String × String))
    (hnd : (inputs.map Prod.snd).Nodup) :
    (buildLoop job_params inputs).1 = job_params ∧
    (buildLoop job_params inputs).2 =
      inputs.map (fun x => buildPayload job_params x.1 x.2) ∧
    (∀ x ∈ inputs,
      (buildPayload job_params x.1 x.2).name = x.2 ++ "_api_conformer-search" ∧
      (buildPayload job_params x.1 x.2).version = job_params.version ∧
      (buildPayload job_params x.1 x.2).kind = job_params.kind ∧
      (buildPayload job_params x.1 x.2).parameters.params =
        job_params.parameters.params ∧
      (buildPayload job_params x.1 x.2).parameters.filters =
        job_params.parameters.filters ∧
      (buildPayload job_params x.1 x.2).resources = job_params.resources) ∧
    ((buildLoop job_params inputs).2.map JobParams.name).Nodup := by
  refine ⟨(buildLoop_eq _ _ ▸ rfl), (buildLoop_eq _ _ ▸ rfl), ?_, ?_⟩
  · intro x _
    exact ⟨rfl, rfl, rfl, rfl, rfl, rfl⟩
  · rw [buildLoop_eq]
    have hmap : (inputs.map (fun x => buildPayload job_params x.1 x.2)).map
        JobParams.name =
        (inputs.map Prod.snd).map (fun s : String => s ++ "_api_conformer-search") := by
      simp [buildPayload]
    rw [hmap]
    exact hnd.map (append_left_inj "_api_conformer-search")

/-- C2 witness: the script's own inputs satisfy the distinct-labels hypothesis,
and the conclusion holds for them. -/
theorem C2_build_payloads_witness :
    ((SMILES.zip SMILES_Names).map Prod.snd).Nodup ∧
    (buildLoop job_params (SMILES.zip SMILES_Names)).1 = job_params ∧
    ((buildLoop job_params (SMILES.zip SMILES_Names)).2.map JobParams.name).Nodup := by
  have h := C2_build_payloads (SMILES.zip SMILES_Names) (by decide)
  exact ⟨by decide, h.1, h.2.2.2⟩

/-! ## C3: error handling in the submission loop -/

/-- C3 counterexample: the claim states that when submit raises for the i-th
input, later inputs are still submitted.  The loop body (lines 126-136) has no
exception handling: with an oracle that raises on the first of the script's two
inputs, the run produces exactly one submit event — the second input is never
submitted — and the error propagates uncaught. -/
theorem C3_counterexample :
    (SMILES.zip SMILES_Names).length = 2 ∧
    (submitLoop failSubmit job_params (SMILES.zip SMILES_Names)).2.2 =
      Except.error "network error" ∧
    (submitLoop failSubmit job_params (SMILES.zip SMILES_Names)).2.1.length = 1 :=
  ⟨rfl, rfl, rfl⟩

/-- C3 amended: if submit raises for some input, the exception propagates
uncaught and the loop aborts — the inputs before it are each submitted once,
the failing input's submission is attempted, and no later input is submitted. -/
theorem C3_submit_failure_aborts (submit : JobParams → Except String Workflow)
    (tp : JobParams) (pre : List (String × String)) (xs xn : String)
    (post : List (String × String))
    (hpre : ∀ y ∈ pre, ∃ w, submit (buildPayload tp y.1 y.2) = Except.ok w)
    (e : String) (hx : submit (buildPayload tp xs xn) = Except.error e) :
    (submitLoop submit tp (pre ++ (xs, xn) :: post)).2.1 =
      pre.map (fun y =>
        Event.submitEv (buildPayload tp y.1 y.2) (submit (buildPayload tp y.1 y.2)))
        ++ [Event.submitEv (buildPayload tp xs xn) (Except.error e)] ∧
    (submitLoop submit tp (pre ++ (xs, xn) :: post)).2.2 = Except.error e := by
  induction pre with
  | nil =>
      simp [List.nil_append, submitLoop, hx]
  | cons y pre' ih =>
      obtain ⟨smile, smile_name⟩ := y
      obtain ⟨w, hw⟩ := hpre ⟨smile, smile_name⟩ (List.mem_cons_self _ _)
      have hrest := ih (fun z hz => hpre z (List.mem_cons_of_mem _ hz))
      simp only [List.cons_append, submitLoop, hw, List.append_eq]
      refine ⟨?_, ?_⟩
      · rw [hrest.1]
        simp [hw]
      · rw [hrest.2]
        rfl

/-- C3 amended witness: with the oracle that succeeds on the first script input
and raises on the second, the run submits the first input, attempts the second,
and aborts with the error. -/
theorem C3_submit_failure_aborts_witness :
    flakySubmit (buildPayload job_params
      "CC1(C2C1C(N(C2)C(=O)C(C(C)(C)C)NC(=O)C(F)(F)F)C(=O)NC(CC3CCNC3=O)C#N)C"
      "Nirmatrelvir") = Except.error "boom" ∧
    (submitLoop flakySubmit job_params (SMILES.zip SMILES_Names)).2.1.length = 2 ∧
    (submitLoop flakySubmit job_params (SMILES.zip SMILES_Names)).2.2 =
      Except.error "boom" := by
  have hdecomp : SMILES.zip SMILES_Names =
      [("CCOCC", "Diethyl_Ether")] ++
        ("CC1(C2C1C(N(C2)C(=O)C(C(C)(C)C)NC(=O)C(F)(F)F)C(=O)NC(CC3CCNC3=O)C#N)C",
          "Nirmatrelvir") :: [] := rfl
  have h := C3_submit_failure_aborts flakySubmit job_params
    [("CCOCC", "Diethyl_Ether")]
    "CC1(C2C1C(N(C2)C(=O)C(C(C)(C)C)NC(=O)C(F)(F)F)C(=O)NC(CC3CCNC3=O)C#N)C"
    "Nirmatrelvir" []
    (by
      intro y hy
      rw [List.mem_singleton] at hy
      subst hy
      exact ⟨_, rfl⟩)
    "boom" rfl
  rw [hdecomp]
  refine ⟨rfl, ?_, h.2⟩
  rw [h.1]
  rfl

/-! ## C4: stored identifiers -/

/-- C4: when every submission succeeds, the loop stores exactly one identifier
per input pair, in input order, and the k-th stored identifier is the id of the
workflow returned by submit for the k-th input. -/
theorem C4_ids_in_order (submit : JobParams → Except String Workflow)
    (inputs : List (String × String))
    (h : ∀ x ∈ inputs, ∃ w, submit (buildPayload job_params x.1 x.2) = Except.ok w) :
    ∃ ids, (submitLoop submit job_params inputs).2.2 = Except.ok ids ∧
      ids.length = inputs.length ∧
      ∀ (k : Nat) (x : String × String), inputs[k]? = some x →
        ∃ w, submit (buildPayload job_params x.1 x.2) = Except.ok w ∧
          ids[k]? = some w.id := by
  rw [submitLoop_ok submit job_params inputs h]
  refine ⟨_, rfl, by simp, ?_⟩
  intro k x hk
  obtain ⟨w, hw⟩ := h x (List.getElem?_mem hk)
  refine ⟨w, hw, ?_⟩
  rw [List.getElem?_map, hk]
  simp [hw, okId]

/-- C4 witness: for the script's two inputs with an always-succeeding oracle,
two identifiers are stored and each is the id returned for its input. -/
theorem C4_ids_in_order_witness :
    (∀ x ∈ SMILES.zip SMILES_Names,
      ∃ w, okSubmit (buildPayload job_params x.1 x.2) = Except.ok w) ∧
    ∃ ids, (submitLoop okSubmit job_params (SMILES.zip SMILES_Names)).2.2 =
        Except.ok ids ∧ ids.length = 2 ∧
      ids[0]? = some "Diethyl_Ether_api_conformer-search-id" := by
  have hyp : ∀ x ∈ SMILES.zip SMILES_Names,
      ∃ w, okSubmit (buildPayload job_params x.1 x.2) = Except.ok w :=
    fun x _ => ⟨_, rfl⟩
  obtain ⟨ids, h1, h2, h3⟩ := C4_ids_in_order okSubmit (SMILES.zip SMILES_Names) hyp
  refine ⟨hyp, ids, h1, by simpa using h2, ?_⟩
  obtain ⟨w, hw, hid⟩ := h3 0 ("CCOCC", "Diethyl_Ether") rfl
  rw [hid]
  cases hw
  rfl

/-! ## C10: mismatched input list lengths -/

/-- C10: the submission loop iterates over `zip(SMILES, SMILES_Names)`, so with
lists of different lengths exactly `min` of the two lengths workflows are
submitted, the surplus entries are silently ignored, and no error is raised. -/
theorem C10_zip_truncates (smiles names : List String)
    (submit : JobParams → Except String Workflow)
    (h : ∀ x ∈ smiles.zip names,
      ∃ w, submit (buildPayload job_params x.1 x.2) = Except.ok w) :
    (submitLoop submit job_params (smiles.zip names)).2.1.length =
      min smiles.length names.length ∧
    ∃ ids, (submitLoop submit job_params (smiles.zip names)).2.2 = Except.ok ids ∧
      ids.length = min smiles.length names.length := by
  rw [submitLoop_ok submit job_params (smiles.zip names) h]
  refine ⟨by simp, _, rfl, by simp⟩

/-- C10 witness: two SMILES strings but a single name submit exactly one
workflow and raise no error. -/
theorem C10_zip_truncates_witness :
    (∀ x ∈ SMILES.zip ["Diethyl_Ether"],
      ∃ w, okSubmit (buildPayload job_params x.1 x.2) = Except.ok w) ∧
    (submitLoop okSubmit job_params (SMILES.zip ["Diethyl_Ether"])).2.1.length = 1 ∧
    ∃ ids, (submitLoop okSubmit job_params (SMILES.zip ["Diethyl_Ether"])).2.2 =
        Except.ok ids ∧ ids.length = 1 := by
  have hyp : ∀ x ∈ SMILES.zip ["Diethyl_Ether"],
      ∃ w, okSubmit (buildPayload job_params x.1 x.2) = Except.ok w :=
    fun x _ => ⟨_, rfl⟩
  have h := C10_zip_truncates SMILES ["Diethyl_Ether"] okSubmit hyp
  refine ⟨hyp, by simpa using h.1, ?_⟩
  obtain ⟨ids, h1, h2⟩ := h.2
  exact ⟨ids, h1, by simpa using h2⟩

/-! ## Lemmas about the wait/collect loop -/

/-- Writing into an existing directory succeeds and appends the file. -/
theorem writeInDir_some (fs : FS) (d : String)
    (hd : fs.dirs.contains d = true) (f c : String) :
    writeInDir fs d f c =
      some { fs with files := fs.files ++ [(d ++ "/" ++ f, c)] } := by
  unfold writeInDir
  rw [if_pos hd]

/-- When the output directory exists, the wait/collect loop completes without a
filesystem error. -/
theorem resultsLoop_isSome {σ ρ : Type} (C : Client σ ρ) (ser : ρ → String) :
    ∀ (ids : List String) (s : σ) (fs : FS),
      fs.dirs.contains foldername = true →
      (resultsLoop C ser s fs ids).2.isSome = true := by
  intro ids
  induction ids with
  | nil => intro s fs _; rfl
  | cons wid rest ih =>
      intro s fs hd
      simp only [resultsLoop, writeInDir_some fs foldername hd]
      exact ih (C.wait s wid) _ hd

/-- When the output directory exists, the write events of the wait/collect loop
are exactly one per stored id, in order, with the path built from the workflow
name and the contents the serialized result. -/
theorem resultsLoop_writes {σ ρ : Type} (C : Client σ ρ) (ser : ρ → String) :
    ∀ (ids : List String) (s : σ) (fs : FS),
      fs.dirs.contains foldername = true →
      (resultsLoop C ser s fs ids).1.filterMap writeOf =
        (resultsTrace C s ids).map
          (fun nr => (foldername ++ "/" ++ (nr.1 ++ "_results.json"), ser nr.2)) := by
  intro ids
  induction ids with
  | nil => intro s fs _; rfl
  | cons wid rest ih =>
      intro s fs hd
      simp only [resultsLoop, resultsTrace, writeInDir_some fs foldername hd,
        List.filterMap_cons, writeOf, List.map_cons]
      congr 1
      exact ih _ _ hd

/-- The wait/collect loop observes one (name, result) pair per stored id. -/
theorem resultsTrace_length {σ ρ : Type} (C : Client σ ρ) :
    ∀ (ids : List String) (s : σ), (resultsTrace C s ids).length = ids.length := by
  intro ids
  induction ids with
  | nil => intro s; rfl
  | cons wid rest ih => intro s; simp [resultsTrace, ih]

/-- When the output directory exists, the ids waited on by the wait/collect
loop are exactly the stored ids, in order. -/
theorem resultsLoop_waitIds {σ ρ : Type} (C : Client σ ρ) (ser : ρ → String) :
    ∀ (ids : List String) (s : σ) (fs : FS),
      fs.dirs.contains foldername = true →
      (resultsLoop C ser s fs ids).1.filterMap waitIdOf = ids := by
  intro ids
  induction ids with
  | nil => intro s fs _; rfl
  | cons wid rest ih =>
      intro s fs hd
      simp only [resultsLoop, writeInDir_some fs foldername hd,
        List.filterMap_cons, waitIdOf]
      congr 1
      exact ih _ _ hd

/-- The wait/collect loop emits no submission events. -/
theorem resultsLoop_no_submit {σ ρ : Type} (C : Client σ ρ) (ser : ρ → String) :
    ∀ (ids : List String) (s : σ) (fs : FS),
      ∀ e ∈ (resultsLoop C ser s fs ids).1, isSubmitE e = false := by
  intro ids
  induction ids with
  | nil => intro s fs e he; simp [resultsLoop] at he
  | cons wid rest ih =>
      intro s fs e he
      simp only [resultsLoop] at he
      cases hw : writeInDir fs foldername
          ((C.get (C.wait s wid) wid).name ++ "_results.json")
          (ser (C.results (C.wait s wid) wid)) with
      | none =>
          simp only [hw, List.mem_cons, List.not_mem_nil, or_false] at he
          rcases he with h | h | h
          · subst h; rfl
          · subst h; rfl
          · subst h; rfl
      | some fs1 =>
          simp only [hw, List.mem_cons] at he
          rcases he with h | h | h | h | h
          · subst h; rfl
          · subst h; rfl
          · subst h; rfl
          · subst h; rfl
          · exact ih (C.wait s wid) fs1 e h

/-- The submission loop emits only submission events. -/
theorem submitLoop_all_submit (submit : JobParams → Except String Workflow) :
    ∀ (inputs : List (String × String)) (tp : JobParams),
      ∀ e ∈ (submitLoop submit tp inputs).2.1, isSubmitE e = true := by
  intro inputs
  induction inputs with
  | nil => intro tp e he; simp [submitLoop] at he
  | cons x rest ih =>
      intro tp e he
      obtain ⟨smile, smile_name⟩ := x
      simp only [submitLoop] at he
      cases hsub : submit (buildPayload tp smile smile_name) with
      | error e' =>
          simp only [hsub, List.mem_singleton] at he
          subst he; rfl
      | ok w =>
          simp only [hsub, List.mem_cons] at he
          rcases he with h | h
          · subst h; rfl
          · exact ih tp e h

/-! ## C5: statuses are terminal after waiting -/

/-- C5: under the collaborator contract that `wait(id)` blocks until the
workflow is terminal — i.e. reading the status right after a wait yields
`"completed"` or `"failed"` — every status read by the wait/collect loop is
terminal, because the loop always waits on an id immediately before getting it. -/
theorem C5_status_terminal {σ ρ : Type} (C : Client σ ρ) (ser : ρ → String)
    (hC : ∀ (s : σ) (wid : String), isTerminal ((C.get (C.wait s wid) wid).status)) :
    ∀ (ids : List String) (s : σ) (fs : FS),
      ∀ st ∈ (resultsLoop C ser s fs ids).1.filterMap getStatusOf, isTerminal st := by
  intro ids
  induction ids with
  | nil => intro s fs st hst; simp [resultsLoop] at hst
  | cons wid rest ih =>
      intro s fs st hst
      simp only [resultsLoop] at hst
      cases hw : writeInDir fs foldername
          ((C.get (C.wait s wid) wid).name ++ "_results.json")
          (ser (C.results (C.wait s wid) wid)) with
      | none =>
          simp only [hw, List.filterMap_cons, getStatusOf,
            List.filterMap_nil, List.mem_singleton] at hst
          subst hst
          exact hC s wid
      | some fs1 =>
          simp only [hw, List.filterMap_cons, getStatusOf, List.mem_cons] at hst
          rcases hst with h | h
          · subst h
            exact hC s wid
          · exact ih (C.wait s wid) fs1 st h

/-- C5 witness: a client whose wait drives workflows to the completed state
satisfies the contract, and a concrete status read from the loop is terminal. -/
theorem C5_status_terminal_witness :
    (∀ (s : Unit) (wid : String),
      isTerminal ((demoClient.get (demoClient.wait s wid) wid).status)) ∧
    isTerminal "completed" := by
  have hC : ∀ (s : Unit) (wid : String),
      isTerminal ((demoClient.get (demoClient.wait s wid) wid).status) :=
    fun _ _ => Or.inl rfl
  refine ⟨hC, ?_⟩
  exact C5_status_terminal demoClient demoSer hC ["wf-1"] ()
    { dirs := ["output"], files := [] } "completed" (by decide)

/-! ## C6: the result writer -/

/-- C6: when the output directory exists and the external serializer satisfies
the round-trip contract, the wait/collect loop writes exactly one file per
stored id, at path `output/<workflow name>_results.json`, whose contents are
the serialized result and deserialize back to the original result object. -/
theorem C6_result_writer {σ ρ : Type} (C : Client σ ρ) (ser : ρ → String)
    (deser : String → Option ρ) (hrt : ∀ r, deser (ser r) = some r)
    (s : σ) (fs : FS) (ids : List String)
    (hd : fs.dirs.contains foldername = true) :
    (resultsLoop C ser s fs ids).1.filterMap writeOf =
      (resultsTrace C s ids).map
        (fun nr => ("output/" ++ nr.1 ++ "_results.json", ser nr.2)) ∧
    ((resultsLoop C ser s fs ids).1.filterMap writeOf).length = ids.length ∧
    ∀ pc ∈ (resultsLoop C ser s fs ids).1.filterMap writeOf,
      ∃ r, pc.2 = ser r ∧ deser pc.2 = some r := by
  have hpath : ∀ n : String,
      foldername ++ "/" ++ (n ++ "_results.json") = "output/" ++ n ++ "_results.json" :=
    fun n => (String.append_assoc "output/" n "_results.json").symm
  have hw := resultsLoop_writes C ser ids s fs hd
  have hmap : (resultsTrace C s ids).map
      (fun nr => (foldername ++ "/" ++ (nr.1 ++ "_results.json"), ser nr.2)) =
      (resultsTrace C s ids).map
        (fun nr => ("output/" ++ nr.1 ++ "_results.json", ser nr.2)) :=
    List.map_congr_left (fun nr _ => by rw [hpath nr.1])
  refine ⟨hw.trans hmap, ?_, ?_⟩
  · rw [hw]
    simp [resultsTrace_length]
  · intro pc hpc
    rw [hw.trans hmap] at hpc
    obtain ⟨nr, _, hnr⟩ := List.mem_map.mp hpc
    exact ⟨nr.2, by rw [← hnr], by rw [← hnr]; exact hrt nr.2⟩

/-- C6 witness: with the demo client, serializer and deserializer over an
existing output directory, one id yields exactly one write that round-trips. -/
theorem C6_result_writer_witness :
    (∀ r : Unit, demoDeser (demoSer r) = some r) ∧
    ({ dirs := ["output"], files := [] : FS }.dirs.contains foldername = true) ∧
    ((resultsLoop demoClient demoSer () { dirs := ["output"], files := [] }
        ["wf-1"]).1.filterMap writeOf).length = 1 := by
  have hrt : ∀ r : Unit, demoDeser (demoSer r) = some r := fun r => by cases r; rfl
  have hd : ({ dirs := ["output"], files := [] : FS }.dirs.contains foldername = true) := by
    decide
  have h := C6_result_writer demoClient demoSer demoDeser hrt ()
    { dirs := ["output"], files := [] } ["wf-1"] hd
  exact ⟨hrt, hd, h.2.1⟩

/-! ## Helper lemmas for the whole-script trace -/

/-- The line 33-34 check guarantees the output directory exists afterwards. -/
theorem ensureOutput_contains (fs0 : FS) :
    (ensureOutput fs0).dirs.contains foldername = true := by
  unfold ensureOutput
  by_cases hc : fs0.dirs.contains foldername = true
  · rw [if_pos hc]; exact hc
  · rw [if_neg hc]; simp

/-- A filterMap that hits on every element is a map. -/
theorem filterMap_eq_map_of_forall {α β : Type} (f : α → Option β) (g : α → β) :
    ∀ l : List α, (∀ x ∈ l, f x = some (g x)) → l.filterMap f = l.map g := by
  intro l
  induction l with
  | nil => intro _; rfl
  | cons a l ih =>
      intro h
      simp only [List.filterMap_cons, h a (List.mem_cons_self _ _), List.map_cons,
        ih (fun x hx => h x (List.mem_cons_of_mem _ hx))]

/-- Non-submission events carry no submitted id. -/
theorem submitIdOf_eq_none (e : Event) (h : isSubmitE e = false) :
    submitIdOf e = none := by
  cases e <;> simp [submitIdOf] <;> simp [isSubmitE] at h

/-- Submission events carry no waited-on id. -/
theorem waitIdOf_none_of_submit (e : Event) (h : isSubmitE e = true) :
    waitIdOf e = none := by
  cases e <;> simp [waitIdOf] <;> simp [isSubmitE] at h

/-- A submission event is not a wait event. -/
theorem isWaitE_false_of_submit (e : Event) (h : isSubmitE e = true) :
    isWaitE e = false := by
  cases e <;> simp [isWaitE] <;> simp [isSubmitE] at h

/-- In a concatenation whose first part has no q-events and whose second part
has no p-events, every p-event's index precedes every q-event's index. -/
theorem split_indices_lt {α : Type} (p q : α → Bool) (l1 l2 : List α)
    (hp : ∀ e ∈ l2, p e = false) (hq : ∀ e ∈ l1, q e = false)
    (i j : Nat) (ei ej : α)
    (hEi : (l1 ++ l2)[i]? = some ei) (hEj : (l1 ++ l2)[j]? = some ej)
    (hpi : p ei = true) (hqj : q ej = true) : i < j := by
  have hi1 : i < l1.length := by
    by_contra hc
    push_neg at hc
    rw [List.getElem?_append_right hc] at hEi
    have hmem : ei ∈ l2 := List.getElem?_mem hEi
    rw [hp ei hmem] at hpi
    exact Bool.false_ne_true hpi
  have hj1 : l1.length ≤ j := by
    by_contra hc
    push_neg at hc
    rw [List.getElem?_append_left hc] at hEj
    have hmem : ej ∈ l1 := List.getElem?_mem hEj
    rw [hq ej hmem] at hqj
    exact Bool.false_ne_true hqj
  omega

/-! ## C7: two-phase sequential execution -/

/-- C7: when all submissions succeed, the run is two-phase — the trace splits
so that every submission event precedes every wait event, the ids submitted
are exactly the stored `workflow_ids` in input order, and the wait phase
processes exactly those ids one at a time in the same order. -/
theorem C7_two_phase {σ ρ : Type} (C : Client σ ρ) (ser : ρ → String)
    (s0 : σ) (fs0 : FS) (smiles names : List String)
    (hok : ∀ x ∈ smiles.zip names,
      ∃ w, C.submit (buildPayload job_params x.1 x.2) = Except.ok w) :
    ∃ ids : List String,
      (submitLoop C.submit job_params (smiles.zip names)).2.2 = Except.ok ids ∧
      (runScript C ser s0 fs0 smiles names).1.filterMap submitIdOf = ids ∧
      (runScript C ser s0 fs0 smiles names).1.filterMap waitIdOf = ids ∧
      ∀ (i j : Nat) (ei ej : Event),
        (runScript C ser s0 fs0 smiles names).1[i]? = some ei →
        (runScript C ser s0 fs0 smiles names).1[j]? = some ej →
        isSubmitE ei = true → isWaitE ej = true → i < j := by
  have hchar := submitLoop_ok C.submit job_params (smiles.zip names) hok
  have hres : (submitLoop C.submit job_params (smiles.zip names)).2.2 =
      Except.ok ((smiles.zip names).map
        (fun x => okId (C.submit (buildPayload job_params x.1 x.2)))) := by
    rw [hchar]
  have hevs1 : (submitLoop C.submit job_params (smiles.zip names)).2.1 =
      (smiles.zip names).map (fun x =>
        Event.submitEv (buildPayload job_params x.1 x.2)
          (C.submit (buildPayload job_params x.1 x.2))) := by
    rw [hchar]
  have hrun : (runScript C ser s0 fs0 smiles names).1 =
      (submitLoop C.submit job_params (smiles.zip names)).2.1 ++
        (resultsLoop C ser s0 (ensureOutput fs0)
          ((smiles.zip names).map
            (fun x => okId (C.submit (buildPayload job_params x.1 x.2))))).1 := by
    simp only [runScript, hres]
  have hd := ensureOutput_contains fs0
  have hsub1 : (submitLoop C.submit job_params (smiles.zip names)).2.1.filterMap
      submitIdOf = (smiles.zip names).map
        (fun x => okId (C.submit (buildPayload job_params x.1 x.2))) := by
    rw [hevs1, List.filterMap_map]
    apply filterMap_eq_map_of_forall
    intro x hx
    obtain ⟨w, hw⟩ := hok x hx
    simp [Function.comp, submitIdOf, hw, okId]
  have hsub2 : (resultsLoop C ser s0 (ensureOutput fs0)
      ((smiles.zip names).map
        (fun x => okId (C.submit (buildPayload job_params x.1 x.2))))).1.filterMap
      submitIdOf = [] :=
    List.filterMap_eq_nil_iff.mpr
      (fun e he => submitIdOf_eq_none e (resultsLoop_no_submit C ser _ s0 _ e he))
  have hwait1 : (submitLoop C.submit job_params (smiles.zip names)).2.1.filterMap
      waitIdOf = [] :=
    List.filterMap_eq_nil_iff.mpr
      (fun e he => waitIdOf_none_of_submit e
        (submitLoop_all_submit C.submit (smiles.zip names) job_params e he))
  have hwait2 := resultsLoop_waitIds C ser
    ((smiles.zip names).map
      (fun x => okId (C.submit (buildPayload job_params x.1 x.2))))
    s0 (ensureOutput fs0) hd
  refine ⟨_, hres, ?_, ?_, ?_⟩
  · rw [hrun, List.filterMap_append, hsub1, hsub2, List.append_nil]
  · rw [hrun, List.filterMap_append, hwait1, hwait2, List.nil_append]
  · intro i j ei ej hEi hEj hpi hqj
    rw [hrun] at hEi hEj
    exact split_indices_lt isSubmitE isWaitE _ _
      (fun e he => resultsLoop_no_submit C ser _ s0 _ e he)
      (fun e he => isWaitE_false_of_submit e
        (submitLoop_all_submit C.submit (smiles.zip names) job_params e he))
      i j ei ej hEi hEj hpi hqj

/-- C7 witness: a full run on the script's inputs with the demo client — all
submissions succeed, the waited ids are the stored ids in order, and a
concrete submit event (index 0) precedes a concrete wait event (index 2). -/
theorem C7_two_phase_witness :
    (∀ x ∈ SMILES.zip SMILES_Names,
      ∃ w, demoClient.submit (buildPayload job_params x.1 x.2) = Except.ok w) ∧
    (runScript demoClient demoSer () { dirs := [], files := [] }
        SMILES SMILES_Names).1.filterMap waitIdOf =
      ["Diethyl_Ether_api_conformer-search-id",
       "Nirmatrelvir_api_conformer-search-id"] ∧
    0 < 2 := by
  have hok : ∀ x ∈ SMILES.zip SMILES_Names,
      ∃ w, demoClient.submit (buildPayload job_params x.1 x.2) = Except.ok w :=
    fun x _ => ⟨_, rfl⟩
  obtain ⟨ids, hres, hsub, hwait, hord⟩ :=
    C7_two_phase demoClient demoSer () { dirs := [], files := [] }
      SMILES SMILES_Names hok
  have hids : ids = ["Diethyl_Ether_api_conformer-search-id",
      "Nirmatrelvir_api_conformer-search-id"] := by
    have h0 : (submitLoop demoClient.submit job_params
        (SMILES.zip SMILES_Names)).2.2 =
        Except.ok ["Diethyl_Ether_api_conformer-search-id",
          "Nirmatrelvir_api_conformer-search-id"] := rfl
    rw [hres] at h0
    exact Except.ok.inj h0
  refine ⟨hok, by rw [hwait, hids], ?_⟩
  have hE0 : ((runScript demoClient demoSer () { dirs := [], files := [] }
      SMILES SMILES_Names).1[0]?).map isSubmitE = some true := rfl
  have hE2 : ((runScript demoClient demoSer () { dirs := [], files := [] }
      SMILES SMILES_Names).1[2]?).map isWaitE = some true := rfl
  rcases h0 : (runScript demoClient demoSer () { dirs := [], files := [] }
      SMILES SMILES_Names).1[0]? with _ | e0
  · rw [h0] at hE0; cases hE0
  rcases h2 : (runScript demoClient demoSer () { dirs := [], files := [] }
      SMILES SMILES_Names).1[2]? with _ | e2
  · rw [h2] at hE2; cases hE2
  rw [h0] at hE0
  rw [h2] at hE2
  exact hord 0 2 e0 e2 h0 h2 (Option.some.inj hE0) (Option.some.inj hE2)

/-! ## C8: the submitted payload's fields -/

/-- C8 counterexample: the claim lists `name` among the template fields the
payload carries, but `name` is overwritten per input: the payload built for the
first script input has name `Diethyl_Ether_api_conformer-search`, not the
template's `name_placeholder`. -/
theorem C8_counterexample :
    (buildPayload job_params "CCOCC" "Diethyl_Ether").name ≠ job_params.name := by
  decide

/-- C8 amended: every payload's `parameters.molecule` equals the object with the
base64-encoded SMILES and filetype `smi`, its `name` is the label-derived
workflow name, and it carries the template's `version`, `kind`,
`parameters.params`, `parameters.filters` and `resources` unchanged. -/
theorem C8_payload_fields (smile smile_name : String) :
    (buildPayload job_params smile smile_name).parameters.molecule =
      JVal.obj [("base64data", JVal.str (base64encode smile)),
                ("filetype", JVal.str "smi")] ∧
    (buildPayload job_params smile smile_name).name =
      smile_name ++ "_api_conformer-search" ∧
    (buildPayload job_params smile smile_name).version = job_params.version ∧
    (buildPayload job_params smile smile_name).kind = job_params.kind ∧
    (buildPayload job_params smile smile_name).parameters.params =
      job_params.parameters.params ∧
    (buildPayload job_params smile smile_name).parameters.filters =
      job_params.parameters.filters ∧
    (buildPayload job_params smile smile_name).resources = job_params.resources :=
  ⟨rfl, rfl, rfl, rfl, rfl, rfl, rfl⟩

/-! ## C9: the output directory -/

/-- C9: on every run the output directory is created when absent before any
result file is written — after the line 33-34 check, `output` exists, and
consequently the wait/collect loop never fails for lack of the output
directory, whatever the initial filesystem and stored ids. -/
theorem C9_output_dir {σ ρ : Type} (C : Client σ ρ) (ser : ρ → String)
    (s : σ) (fs0 : FS) (ids : List String) :
    (ensureOutput fs0).dirs.contains foldername = true ∧
    (resultsLoop C ser s (ensureOutput fs0) ids).2.isSome = true := by
  have hd : (ensureOutput fs0).dirs.contains foldername = true := by
    unfold ensureOutput
    rcases hc : fs0.dirs.contains foldername with _ | _
    · simp
    · simpa using hc
  exact ⟨hd, resultsLoop_isSome C ser ids s (ensureOutput fs0) hd⟩

end ConformerSearch
